import Mathlib

/-!
Shallow embedding of the dissociation endpoints of `src/app.py`.

The program is a small Flask application over a Postgres database with two
tables relevant to the claims:

* `ns.annotations_terms` with columns `study_id` and `term` (plus
  `contrast_id` and `weight`, which the dissociation queries never read);
* `ns.coordinates` with a `study_id` and a 3-D point `geom`.

The two endpoints embedded here are
`dissociate_by_terms` (route `/dissociate/terms/<term_a>/<term_b>`,
`src/app.py` lines 46-110) and `dissociate_by_coordinates`
(route `/dissociate/locations/<coords_a>/<coords_b>`, lines 112-207).

Modelling decisions, each tied to the source:

* A table is a list of rows; `SELECT DISTINCT ... ORDER BY study_id` is
  modelled by deduplicating the qualifying study ids and sorting them
  ascending (`distinctSorted`).
* SQL `LOWER` is modelled by per-character ASCII lowering (`lowerStr`);
  the terms exercised by the claims are ASCII.
* Python `str.replace("_", " ")` is `substUnderscores` (the pattern is a
  single character, so a character map is exact).
* Python `coords.split("_")` followed by `map(float, ...)` unpacked into
  exactly three variables is `parseCoords`: any wrong component count or
  unparsable component raises `ValueError` in Python, which the handler
  turns into a 400 response; here both collapse to `none`.
* `float` is modelled on finite decimal literals (optional sign, digits,
  optional fraction, optional exponent) over `ℚ`; the special forms
  (`inf`, `nan`, surrounding whitespace) are outside every claim.
* PostGIS `ST_DWithin(geom, point, tol)` is modelled as
  "distance from the stored point to the query point is at most `tol`",
  expressed in `ℚ` as `0 ≤ tol ∧ dist² ≤ tol²` (a real distance is
  nonnegative, so the two are equivalent and no square root is needed).
* The database-failure path (`except Exception` → HTTP 500) is not
  modelled: the stores are in-memory lists and cannot fail. The term
  handler has no other error path, so its endpoint always returns `.ok`;
  the coordinate handler keeps its `ValueError` → HTTP 400 path.
-/

/-- A row of `ns.annotations_terms` as read by the dissociation queries:
only `study_id` and `term` are consulted. -/
structure TermRow where
  study_id : Nat
  term : String
  deriving Repr, DecidableEq

/-- A row of `ns.coordinates`: a study id and the coordinates of one
recorded activation point (`geom`). -/
structure CoordRow where
  study_id : Nat
  x : ℚ
  y : ℚ
  z : ℚ
  deriving Repr, DecidableEq

/-- A parsed coordinate triple, as produced by
`x, y, z = map(float, coords.split("_"))`. -/
structure Coord3 where
  x : ℚ
  y : ℚ
  z : ℚ
  deriving Repr, DecidableEq

/-- Python `term.replace("_", " ")` (`src/app.py` lines 83-84, 88-89,
94-95): every underscore becomes a space. -/
def substUnderscores (s : String) : String :=
  String.mk (s.data.map (fun c => if c = '_' then ' ' else c))

/-- SQL `LOWER` on the ASCII strings the queries compare:
per-character lower-casing. -/
def lowerStr (s : String) : String :=
  String.mk (s.data.map Char.toLower)

/-- The SQL predicate `LOWER(term) = LOWER(:t)` applied to one row. -/
def termRowMatches (r : TermRow) (t : String) : Bool :=
  lowerStr r.term == lowerStr t

/-- The inner subquery `SELECT study_id FROM ns.annotations_terms WHERE
LOWER(term) = LOWER(:t)` (`src/app.py` lines 64-65 and 76-77). -/
def termStudyIds (store : List TermRow) (t : String) : List Nat :=
  (store.filter (fun r => termRowMatches r t)).map (fun r => r.study_id)

/-- `SELECT DISTINCT ... ORDER BY study_id`: duplicate removal followed by
an ascending sort. -/
def distinctSorted (l : List Nat) : List Nat :=
  List.insertionSort (· ≤ ·) l.dedup

/-- The outer dissociation query (`src/app.py` lines 59-68): distinct study
ids whose term matches `ta` and that are `NOT IN` the study ids matching
`tb`, ordered by study id. -/
def diffQuery (store : List TermRow) (ta tb : String) : List Nat :=
  distinctSorted
    ((store.filter
      (fun r => termRowMatches r ta && !((termStudyIds store tb).contains r.study_id))).map
      (fun r => r.study_id))

/-- One direction of a dissociation response: `"count"` and `"studies"`
(`src/app.py` lines 98-101); the code sets `count` to the length of the
fetched row list and `studies` to that same list. -/
structure DirResult where
  count : Nat
  studies : List Nat
  deriving Repr, DecidableEq

/-- Builds a `DirResult` from a fetched row list, as the handler does. -/
def mkDir (l : List Nat) : DirResult :=
  { count := l.length, studies := l }

/-- The JSON envelope of `dissociate_by_terms` (`src/app.py` lines 92-107):
the echoed `"query"` object holds the underscore-substituted terms, the two
`"results"` keys are built from the raw route strings via an f-string
`"{term_a}_not_{term_b}"`. -/
structure TermResponse where
  query_term_a : String
  query_term_b : String
  label_a_not_b : String
  label_b_not_a : String
  a_not_b : DirResult
  b_not_a : DirResult
  deriving Repr, DecidableEq

/-- The term-mode handler `dissociate_by_terms` (`src/app.py` lines
46-107): substitutes underscores in both terms, runs the two symmetric
difference queries, and packages the envelope. -/
def dissociate_by_terms (store : List TermRow) (term_a term_b : String) : TermResponse :=
  { query_term_a := substUnderscores term_a
    query_term_b := substUnderscores term_b
    label_a_not_b := term_a ++ "_not_" ++ term_b
    label_b_not_a := term_b ++ "_not_" ++ term_a
    a_not_b := mkDir (diffQuery store (substUnderscores term_a) (substUnderscores term_b))
    b_not_a := mkDir (diffQuery store (substUnderscores term_b) (substUnderscores term_a)) }

/-- The error outcomes a handler can report. The coordinate handler's
`except ValueError` branch (`src/app.py` lines 204-205) answers HTTP 400
with a fixed message; no other modelled path fails. -/
inductive AppError where
  | invalidCoordinateFormat
  deriving Repr, DecidableEq

/-- The HTTP status attached to each error (`src/app.py` line 205). -/
def AppError.statusCode : AppError → Nat
  | .invalidCoordinateFormat => 400

/-- The term-mode endpoint as the caller sees it: the handler body has no
input validation and no error path besides database failure (not modelled),
so it always answers 200 with the envelope. -/
def dissociate_terms_endpoint (store : List TermRow) (term_a term_b : String) :
    Except AppError TermResponse :=
  .ok (dissociate_by_terms store term_a term_b)

/-- Python `s.split("_")` on the character list: splits at every
underscore, keeping empty pieces (so `"_"` splits into two empty pieces,
as in Python). -/
def splitCharList : List Char → List (List Char)
  | [] => [[]]
  | c :: cs =>
    if c = '_' then [] :: splitCharList cs
    else
      match splitCharList cs with
      | [] => [[c]]
      | g :: gs => (c :: g) :: gs

/-- Helper for `parseFloatChars`: the value of a digit run. -/
def digitsToNat (cs : List Char) : Nat :=
  cs.foldl (fun n c => 10 * n + (c.toNat - 48)) 0

/-- Python `float` on a finite decimal literal: optional sign, digits with
an optional fractional part (at least one digit overall), optional
`e`/`E` exponent. Returns `none` exactly when Python raises `ValueError`
on such a literal. -/
def parseFloatChars (s : List Char) : Option ℚ :=
  let (sign, cs) :=
    match s with
    | '+' :: t => ((1 : ℚ), t)
    | '-' :: t => ((-1 : ℚ), t)
    | t => ((1 : ℚ), t)
  let ip := cs.takeWhile Char.isDigit
  let cs := cs.dropWhile Char.isDigit
  let (fp, cs) :=
    match cs with
    | '.' :: t => (t.takeWhile Char.isDigit, t.dropWhile Char.isDigit)
    | t => (([] : List Char), t)
  if ip.isEmpty && fp.isEmpty then none
  else
    let mant : ℚ := sign * (digitsToNat ip + (digitsToNat fp : ℚ) / 10 ^ fp.length)
    match cs with
    | [] => some mant
    | 'e' :: t | 'E' :: t =>
      let (esign, t) :=
        match t with
        | '+' :: u => ((1 : Int), u)
        | '-' :: u => ((-1 : Int), u)
        | u => ((1 : Int), u)
      let ed := t.takeWhile Char.isDigit
      let t := t.dropWhile Char.isDigit
      if ed.isEmpty || !t.isEmpty then none
      else some (mant * (10 : ℚ) ^ (esign * (digitsToNat ed : Int)))
    | _ => none

/-- The coordinate parsing of the handler (`src/app.py` lines 121-122):
`x, y, z = map(float, coords.split("_"))`. A component count other than
three or an unparsable component raises `ValueError`; both are `none`. -/
def parseCoords (s : String) : Option Coord3 :=
  match splitCharList s.data with
  | [a, b, c] =>
    match parseFloatChars a, parseFloatChars b, parseFloatChars c with
    | some x, some y, some z => some ⟨x, y, z⟩
    | _, _, _ => none
  | _ => none

/-- Squared Euclidean distance from a stored point to a query point. -/
def dist2 (r : CoordRow) (c : Coord3) : ℚ :=
  (r.x - c.x) * (r.x - c.x) + (r.y - c.y) * (r.y - c.y) + (r.z - c.z) * (r.z - c.z)

/-- `ST_DWithin(geom, ST_MakePoint(cx,cy,cz), t)` on one row: distance at
most `t`, stated over `ℚ` as `0 ≤ t ∧ dist² ≤ t²` (equivalent because a
distance is nonnegative). -/
def coordRowWithin (r : CoordRow) (c : Coord3) (t : ℚ) : Bool :=
  decide (0 ≤ t) && decide (dist2 r c ≤ t * t)

/-- The inner spatial subquery (`src/app.py` lines 142-147): study ids with
some point within tolerance of the centre. -/
def coordStudyIds (store : List CoordRow) (c : Coord3) (t : ℚ) : List Nat :=
  (store.filter (fun r => coordRowWithin r c t)).map (fun r => r.study_id)

/-- The outer spatial dissociation query (`src/app.py` lines 133-150):
distinct study ids within `t1` of `ca` and `NOT IN` the ids within `t2` of
`cb`, ordered by study id. The SQL binds separate `:tolerance1` and
`:tolerance2` parameters, kept separate here. -/
def coordDiffQuery (store : List CoordRow) (ca cb : Coord3) (t1 t2 : ℚ) : List Nat :=
  distinctSorted
    ((store.filter
      (fun r => coordRowWithin r ca t1 && !((coordStudyIds store cb t2).contains r.study_id))).map
      (fun r => r.study_id))

/-- The JSON envelope of `dissociate_by_coordinates` (`src/app.py` lines
184-202). -/
structure CoordResponse where
  query_coords_a : Coord3
  query_coords_b : Coord3
  tolerance_mm : ℚ
  a_not_b : DirResult
  b_not_a : DirResult
  deriving Repr, DecidableEq

/-- The successful body of the coordinate handler after parsing, with the
tolerance as a parameter (the handler fixes it to `8.0` at line 125 and
passes it for both `:tolerance1` and `:tolerance2`). -/
def dissociateCoordsCore (store : List CoordRow) (a b : Coord3) (t : ℚ) : CoordResponse :=
  { query_coords_a := a
    query_coords_b := b
    tolerance_mm := t
    a_not_b := mkDir (coordDiffQuery store a b t t)
    b_not_a := mkDir (coordDiffQuery store b a t t) }

/-- The coordinate-mode handler `dissociate_by_coordinates` (`src/app.py`
lines 112-207): both coordinate strings are parsed before the engine is
obtained; a `ValueError` yields the 400 error, otherwise the two spatial
difference queries run with tolerance `8.0`. -/
def dissociate_by_coordinates (store : List CoordRow) (coords_a coords_b : String) :
    Except AppError CoordResponse :=
  match parseCoords coords_a, parseCoords coords_b with
  | some a, some b => .ok (dissociateCoordsCore store a b 8)
  | _, _ => .error .invalidCoordinateFormat

/-- The spec's full term normalization (section 3 of the design document):
case-folding together with underscore-to-space substitution. Kept separate
from the source's echo, which only substitutes underscores, so the two can
be compared. -/
def specNormalize (s : String) : String :=
  lowerStr (substUnderscores s)

/-- Term Store of the spec's concrete scenario:
`"memory" -> {1,2,3}` and `"reward" -> {2,3,4}`. -/
def memoryRewardStore : List TermRow :=
  [⟨1, "memory"⟩, ⟨2, "memory"⟩, ⟨3, "memory"⟩,
   ⟨2, "reward"⟩, ⟨3, "reward"⟩, ⟨4, "reward"⟩]

/-- A Term Store whose single row carries the term `" "`: used to observe
that a whitespace-only request term is really looked up. -/
def spaceTermStore : List TermRow :=
  [⟨7, " "⟩]

/-- A Spatial Store with one study whose only point lies at distance 10
from the origin and distance 90 from `(100,0,0)`. -/
def monoStore : List CoordRow :=
  [⟨5, 10, 0, 0⟩]

/-- C1: on a Term Store mapping "memory" to studies 1,2,3 and "reward" to
studies 2,3,4, dissociating "memory" and "reward" returns `a_not_b = {1}`
and `b_not_a = {4}`, both with reported count 1. -/
theorem C1_concrete_scenario :
    (dissociate_by_terms memoryRewardStore "memory" "reward").a_not_b.studies = [1] ∧
    (dissociate_by_terms memoryRewardStore "memory" "reward").b_not_a.studies = [4] ∧
    (dissociate_by_terms memoryRewardStore "memory" "reward").a_not_b.count = 1 ∧
    (dissociate_by_terms memoryRewardStore "memory" "reward").b_not_a.count = 1 := by
  decide

/-- C2: for every store and every pair of terms, the `a_not_b` direction of
dissociating (A,B) coincides with the `b_not_a` direction of dissociating
(B,A), and vice versa, including the reported counts. -/
theorem C2_symmetry (store : List TermRow) (A B : String) :
    (dissociate_by_terms store A B).a_not_b = (dissociate_by_terms store B A).b_not_a ∧
    (dissociate_by_terms store A B).b_not_a = (dissociate_by_terms store B A).a_not_b :=
  ⟨rfl, rfl⟩

/-- Helper: when the two (already substituted) terms agree after
case-folding, the dissociation query returns no rows: every row matching
`ta` also matches `tb`, so it is excluded by the `NOT IN` subquery. -/
theorem diffQuery_eq_nil_of_lower_eq (store : List TermRow) (ta tb : String)
    (h : lowerStr ta = lowerStr tb) : diffQuery store ta tb = [] := by
  have hfil : store.filter
      (fun r => termRowMatches r ta && !((termStudyIds store tb).contains r.study_id)) = [] := by
    rw [List.filter_eq_nil_iff]
    intro r hr hpred
    rw [Bool.and_eq_true] at hpred
    obtain ⟨hm, hnc⟩ := hpred
    have hm2 : termRowMatches r tb = true := by
      unfold termRowMatches at hm ⊢
      rw [← h]
      exact hm
    have hmem : r.study_id ∈ termStudyIds store tb := by
      unfold termStudyIds
      exact List.mem_map.mpr ⟨r, List.mem_filter.mpr ⟨hr, hm2⟩, rfl⟩
    rw [show (termStudyIds store tb).contains r.study_id = true from
      List.elem_eq_true_of_mem hmem] at hnc
    simp at hnc
  unfold diffQuery
  rw [hfil]
  rfl

/-- C3: whenever the two terms are equal after full normalization
(case-folding plus underscore-to-space substitution) — in particular when a
term is dissociated with itself — the endpoint answers successfully and
both difference sets are empty, with both counts 0. -/
theorem C3_normalized_equal_empty (store : List TermRow) (A B : String)
    (h : specNormalize A = specNormalize B) :
    dissociate_terms_endpoint store A B = .ok (dissociate_by_terms store A B) ∧
    (dissociate_by_terms store A B).a_not_b.studies = [] ∧
    (dissociate_by_terms store A B).b_not_a.studies = [] ∧
    (dissociate_by_terms store A B).a_not_b.count = 0 ∧
    (dissociate_by_terms store A B).b_not_a.count = 0 := by
  unfold specNormalize at h
  have ha := diffQuery_eq_nil_of_lower_eq store _ _ h
  have hb := diffQuery_eq_nil_of_lower_eq store _ _ h.symm
  exact ⟨rfl, by simp [dissociate_by_terms, mkDir, ha], by simp [dissociate_by_terms, mkDir, hb],
    by simp [dissociate_by_terms, mkDir, ha], by simp [dissociate_by_terms, mkDir, hb]⟩

/-- Witness for C3 at the concrete pair "Memory_X" / "memory_x", which are
equal after normalization though not as raw strings. -/
theorem C3_normalized_equal_empty_witness :
    specNormalize "Memory_X" = specNormalize "memory_x" ∧
    (dissociate_terms_endpoint memoryRewardStore "Memory_X" "memory_x" =
        .ok (dissociate_by_terms memoryRewardStore "Memory_X" "memory_x") ∧
      (dissociate_by_terms memoryRewardStore "Memory_X" "memory_x").a_not_b.studies = [] ∧
      (dissociate_by_terms memoryRewardStore "Memory_X" "memory_x").b_not_a.studies = [] ∧
      (dissociate_by_terms memoryRewardStore "Memory_X" "memory_x").a_not_b.count = 0 ∧
      (dissociate_by_terms memoryRewardStore "Memory_X" "memory_x").b_not_a.count = 0) :=
  ⟨by decide, C3_normalized_equal_empty memoryRewardStore "Memory_X" "memory_x" (by decide)⟩

/-- C4: a coordinate string that does not parse into exactly three numeric
components makes the endpoint answer the `InvalidInput` error with HTTP
status 400, and the answer is independent of the store contents (the
rejection happens before any store query). -/
theorem C4_malformed_coordinates_rejected (store store2 : List CoordRow) (ca cb : String)
    (h : parseCoords ca = none ∨ parseCoords cb = none) :
    dissociate_by_coordinates store ca cb = .error .invalidCoordinateFormat ∧
    dissociate_by_coordinates store ca cb = dissociate_by_coordinates store2 ca cb ∧
    AppError.statusCode .invalidCoordinateFormat = 400 := by
  have herr : ∀ st : List CoordRow,
      dissociate_by_coordinates st ca cb = .error .invalidCoordinateFormat := by
    intro st
    cases hca : parseCoords ca with
    | none => simp [dissociate_by_coordinates, hca]
    | some a =>
      cases hcb : parseCoords cb with
      | none => simp [dissociate_by_coordinates, hca, hcb]
      | some b =>
        rcases h with h | h
        · rw [hca] at h
          exact Option.noConfusion h
        · rw [hcb] at h
          exact Option.noConfusion h
  exact ⟨herr store, (herr store).trans (herr store2).symm, rfl⟩

/-- Witness for C4 at the spec's concrete malformed input "1_2" (two
components), against an empty store and a nonempty store. -/
theorem C4_malformed_coordinates_rejected_witness :
    (parseCoords "1_2" = none ∨ parseCoords "0_0_0" = none) ∧
    (dissociate_by_coordinates [] "1_2" "0_0_0" = .error .invalidCoordinateFormat ∧
      dissociate_by_coordinates [] "1_2" "0_0_0" =
        dissociate_by_coordinates [⟨10, 0, 0, 0⟩] "1_2" "0_0_0" ∧
      AppError.statusCode .invalidCoordinateFormat = 400) :=
  ⟨Or.inl (by decide),
    C4_malformed_coordinates_rejected [] [⟨10, 0, 0, 0⟩] "1_2" "0_0_0" (Or.inl (by decide))⟩

/-- C5: a term that matches no row of the Term Store is not an error: the
endpoint succeeds, `a_not_b` is empty, and `b_not_a` is the full (distinct,
sorted) membership set of the other term. -/
theorem C5_unknown_term_not_error (store : List TermRow) (U K : String)
    (h : termStudyIds store (substUnderscores U) = []) :
    dissociate_terms_endpoint store U K = .ok (dissociate_by_terms store U K) ∧
    (dissociate_by_terms store U K).a_not_b.studies = [] ∧
    (dissociate_by_terms store U K).b_not_a.studies =
      distinctSorted (termStudyIds store (substUnderscores K)) := by
  refine ⟨rfl, ?_, ?_⟩
  · have hfil : store.filter (fun r => termRowMatches r (substUnderscores U)) = [] := by
      unfold termStudyIds at h
      exact List.map_eq_nil_iff.mp h
    have hmatch := List.filter_eq_nil_iff.mp hfil
    have houter : store.filter
        (fun r => termRowMatches r (substUnderscores U) &&
          !((termStudyIds store (substUnderscores K)).contains r.study_id)) = [] := by
      rw [List.filter_eq_nil_iff]
      intro r hr hp
      rw [Bool.and_eq_true] at hp
      exact hmatch r hr hp.1
    show diffQuery store (substUnderscores U) (substUnderscores K) = []
    unfold diffQuery
    rw [houter]
    rfl
  · show diffQuery store (substUnderscores K) (substUnderscores U) =
      distinctSorted (termStudyIds store (substUnderscores K))
    simp only [diffQuery, h]
    simp only [List.contains_nil, Bool.not_false, Bool.and_true]
    rfl

/-- Witness for C5: "cerebellum" matches nothing in the concrete store, so
dissociating it against "reward" succeeds with an empty `a_not_b` and the
full "reward" membership as `b_not_a`. -/
theorem C5_unknown_term_not_error_witness :
    termStudyIds memoryRewardStore (substUnderscores "cerebellum") = [] ∧
    (dissociate_terms_endpoint memoryRewardStore "cerebellum" "reward" =
        .ok (dissociate_by_terms memoryRewardStore "cerebellum" "reward") ∧
      (dissociate_by_terms memoryRewardStore "cerebellum" "reward").a_not_b.studies = [] ∧
      (dissociate_by_terms memoryRewardStore "cerebellum" "reward").b_not_a.studies =
        distinctSorted (termStudyIds memoryRewardStore (substUnderscores "reward"))) :=
  ⟨by decide, C5_unknown_term_not_error memoryRewardStore "cerebellum" "reward" (by decide)⟩

/-- C6, counterexample: the handler echoes `term_a.replace("_", " ")`
without case-folding, so for the raw term "Memory" the echoed criterion is
"Memory", not the fully normalized "memory". -/
theorem C6_counterexample_echo_not_casefolded :
    (dissociate_by_terms [] "Memory" "reward").query_term_a ≠ specNormalize "Memory" := by
  decide

/-- C6 as amended: the echoed query holds the underscore-to-space
substituted terms (not case-folded), and these are exactly the strings the
store queries are parameterized with (the match itself lower-cases both
sides, so echoed and matched text agree up to case). -/
theorem C6_amended_echo_substituted (store : List TermRow) (ta tb : String) :
    (dissociate_by_terms store ta tb).query_term_a = substUnderscores ta ∧
    (dissociate_by_terms store ta tb).query_term_b = substUnderscores tb ∧
    (dissociate_by_terms store ta tb).a_not_b.studies =
      diffQuery store (substUnderscores ta) (substUnderscores tb) ∧
    (dissociate_by_terms store ta tb).b_not_a.studies =
      diffQuery store (substUnderscores tb) (substUnderscores ta) :=
  ⟨rfl, rfl, rfl, rfl⟩

/-- Helper: the query output list is sorted ascending. -/
theorem distinctSorted_sorted (l : List Nat) : (distinctSorted l).Sorted (· ≤ ·) :=
  List.sorted_insertionSort _ _

/-- Helper: the query output list is duplicate-free. -/
theorem distinctSorted_nodup (l : List Nat) : (distinctSorted l).Nodup :=
  (List.perm_insertionSort _ _).nodup_iff.mpr (List.nodup_dedup _)

/-- C7: in both modes every returned study list is duplicate-free and
sorted in ascending study-id order, and each reported count is the length
of its list. -/
theorem C7_sorted_dupfree_counts (tstore : List TermRow) (cstore : List CoordRow)
    (ta tb : String) (a b : Coord3) (t : ℚ) :
    (dissociate_by_terms tstore ta tb).a_not_b.studies.Sorted (· ≤ ·) ∧
    (dissociate_by_terms tstore ta tb).a_not_b.studies.Nodup ∧
    (dissociate_by_terms tstore ta tb).a_not_b.count =
      (dissociate_by_terms tstore ta tb).a_not_b.studies.length ∧
    (dissociate_by_terms tstore ta tb).b_not_a.studies.Sorted (· ≤ ·) ∧
    (dissociate_by_terms tstore ta tb).b_not_a.studies.Nodup ∧
    (dissociate_by_terms tstore ta tb).b_not_a.count =
      (dissociate_by_terms tstore ta tb).b_not_a.studies.length ∧
    (dissociateCoordsCore cstore a b t).a_not_b.studies.Sorted (· ≤ ·) ∧
    (dissociateCoordsCore cstore a b t).a_not_b.studies.Nodup ∧
    (dissociateCoordsCore cstore a b t).a_not_b.count =
      (dissociateCoordsCore cstore a b t).a_not_b.studies.length ∧
    (dissociateCoordsCore cstore a b t).b_not_a.studies.Sorted (· ≤ ·) ∧
    (dissociateCoordsCore cstore a b t).b_not_a.studies.Nodup ∧
    (dissociateCoordsCore cstore a b t).b_not_a.count =
      (dissociateCoordsCore cstore a b t).b_not_a.studies.length := by
  refine ⟨?_, ?_, rfl, ?_, ?_, rfl, ?_, ?_, rfl, ?_, ?_, rfl⟩ <;>
    first
      | exact distinctSorted_sorted _
      | exact distinctSorted_nodup _

/-- C8, counterexample: growing the tolerance from 8 to 12 grows the
`a`-side membership set without touching the `b` side, so `a_not_b` grows
from `{}` to `{5}` — it is not monotonically non-increasing in the
tolerance. -/
theorem C8_counterexample_a_not_b_grows :
    (8 : ℚ) ≤ 12 ∧
    (dissociateCoordsCore monoStore ⟨0, 0, 0⟩ ⟨100, 0, 0⟩ 8).a_not_b.studies = [] ∧
    (dissociateCoordsCore monoStore ⟨0, 0, 0⟩ ⟨100, 0, 0⟩ 12).a_not_b.studies = [5] ∧
    ¬ ((dissociateCoordsCore monoStore ⟨0, 0, 0⟩ ⟨100, 0, 0⟩ 12).a_not_b.studies ⊆
        (dissociateCoordsCore monoStore ⟨0, 0, 0⟩ ⟨100, 0, 0⟩ 8).a_not_b.studies) := by
  have hw8 : coordRowWithin ⟨5, 10, 0, 0⟩ ⟨0, 0, 0⟩ 8 = false := by
    simp [coordRowWithin, dist2]
    norm_num
  have hwa : coordRowWithin ⟨5, 10, 0, 0⟩ ⟨0, 0, 0⟩ 12 = true := by
    simp [coordRowWithin, dist2]
    norm_num
  have hwb : coordRowWithin ⟨5, 10, 0, 0⟩ ⟨100, 0, 0⟩ 12 = false := by
    simp [coordRowWithin, dist2]
    norm_num
  have h8 : (dissociateCoordsCore monoStore ⟨0, 0, 0⟩ ⟨100, 0, 0⟩ 8).a_not_b.studies = [] := by
    show coordDiffQuery monoStore ⟨0, 0, 0⟩ ⟨100, 0, 0⟩ 8 8 = []
    simp [coordDiffQuery, monoStore, hw8, distinctSorted]
  have h12 : (dissociateCoordsCore monoStore ⟨0, 0, 0⟩ ⟨100, 0, 0⟩ 12).a_not_b.studies = [5] := by
    show coordDiffQuery monoStore ⟨0, 0, 0⟩ ⟨100, 0, 0⟩ 12 12 = [5]
    simp [coordDiffQuery, coordStudyIds, monoStore, hwa, hwb, distinctSorted,
      List.insertionSort, List.orderedInsert]
  refine ⟨by norm_num, h8, h12, ?_⟩
  intro hsub
  have h5 := hsub (by rw [h12]; exact List.mem_singleton.mpr rfl)
  rw [h8] at h5
  exact List.not_mem_nil 5 h5

/-- C8 as amended: for tolerances `t1 ≤ t2` over the same store, the
spatial membership set at `t2` contains the one at `t1` (the claimed
consequence for `a_not_b` does not follow and is refuted separately). -/
theorem C8_amended_membership_monotone (store : List CoordRow) (c : Coord3) (t1 t2 : ℚ)
    (h : t1 ≤ t2) : coordStudyIds store c t1 ⊆ coordStudyIds store c t2 := by
  intro sid hm
  unfold coordStudyIds at hm ⊢
  obtain ⟨r, hr, rfl⟩ := List.mem_map.mp hm
  obtain ⟨hrs, hw⟩ := List.mem_filter.mp hr
  refine List.mem_map.mpr ⟨r, List.mem_filter.mpr ⟨hrs, ?_⟩, rfl⟩
  unfold coordRowWithin at hw ⊢
  rw [Bool.and_eq_true, decide_eq_true_eq, decide_eq_true_eq] at hw ⊢
  obtain ⟨h0, hd⟩ := hw
  exact ⟨le_trans h0 h, le_trans hd (mul_self_le_mul_self h0 h)⟩

/-- Witness for the amended C8 at tolerances 1 ≤ 2 on a concrete store. -/
theorem C8_amended_membership_monotone_witness :
    (1 : ℚ) ≤ 2 ∧ coordStudyIds monoStore ⟨0, 0, 0⟩ 1 ⊆ coordStudyIds monoStore ⟨0, 0, 0⟩ 2 :=
  ⟨by norm_num, C8_amended_membership_monotone monoStore ⟨0, 0, 0⟩ 1 2 (by norm_num)⟩

/-- C9, counterexample: the raw term "_" substitutes to the
whitespace-only term " ", yet the endpoint does not reject it: it answers
successfully, and the store is really consulted — the row annotated with
the term " " comes back. -/
theorem C9_counterexample_whitespace_term_accepted :
    (substUnderscores "_").data.all (fun c => c == ' ') = true ∧
    dissociate_terms_endpoint spaceTermStore "_" "reward" =
      .ok (dissociate_by_terms spaceTermStore "_" "reward") ∧
    (dissociate_by_terms spaceTermStore "_" "reward").a_not_b.studies = [7] := by
  exact ⟨by decide, rfl, by decide⟩

/-- C9 as amended: a term that is empty or whitespace-only after
underscore substitution is processed like any other term — the endpoint
succeeds and the result is the ordinary store lookup on the substituted
term (there is no `InvalidInput` rejection in the handler). -/
theorem C9_amended_whitespace_term_processed (store : List TermRow) (ta tb : String)
    (_h : (substUnderscores ta).data.all (fun c => c == ' ') = true) :
    dissociate_terms_endpoint store ta tb = .ok (dissociate_by_terms store ta tb) ∧
    (dissociate_by_terms store ta tb).a_not_b.studies =
      diffQuery store (substUnderscores ta) (substUnderscores tb) :=
  ⟨rfl, rfl⟩

/-- Witness for the amended C9 at the whitespace-only term "_". -/
theorem C9_amended_whitespace_term_processed_witness :
    (substUnderscores "_").data.all (fun c => c == ' ') = true ∧
    (dissociate_terms_endpoint spaceTermStore "_" "reward" =
        .ok (dissociate_by_terms spaceTermStore "_" "reward") ∧
      (dissociate_by_terms spaceTermStore "_" "reward").a_not_b.studies =
        diffQuery spaceTermStore (substUnderscores "_") (substUnderscores "reward")) :=
  ⟨by decide, C9_amended_whitespace_term_processed spaceTermStore "_" "reward" (by decide)⟩

/-- Helper: underscore substitution leaves no underscore behind. -/
theorem count_underscore_subst (s : String) :
    List.count '_' (substUnderscores s).data = 0 := by
  have hd : (substUnderscores s).data = s.data.map (fun c => if c = '_' then ' ' else c) := rfl
  rw [hd, List.count_eq_zero]
  intro hmem
  obtain ⟨c, _hc, hfc⟩ := List.mem_map.mp hmem
  by_cases h : c = '_'
  · rw [if_pos h] at hfc
    exact absurd hfc (by decide)
  · rw [if_neg h] at hfc
    exact h hfc

/-- Helper: when either raw term contains an underscore, the key built from
the raw terms differs from the key built from the substituted terms —
counting underscores separates them. -/
theorem rawKey_ne_substKey (ta tb : String) (hu : '_' ∈ ta.data ∨ '_' ∈ tb.data) :
    ta ++ "_not_" ++ tb ≠ substUnderscores ta ++ "_not_" ++ substUnderscores tb := by
  intro heq
  have hd := congrArg String.data heq
  simp only [String.data_append] at hd
  have hc := congrArg (List.count '_') hd
  simp only [List.count_append] at hc
  rw [count_underscore_subst ta, count_underscore_subst tb] at hc
  rcases hu with hu | hu
  · have hp := List.count_pos_iff.mpr hu
    omega
  · have hp := List.count_pos_iff.mpr hu
    omega

/-- C10, counterexample: the request terms "Memory"/"Reward" contain
upper-case letters, yet the result label key is textually identical to the
key built from the echoed query criteria, because the echo substitutes
underscores but never case-folds. -/
theorem C10_counterexample_uppercase_keys_equal :
    ("Memory".data.any (fun c => c.isUpper) = true) ∧
    (dissociate_by_terms [] "Memory" "Reward").label_a_not_b =
      (dissociate_by_terms [] "Memory" "Reward").query_term_a ++ "_not_" ++
        (dissociate_by_terms [] "Memory" "Reward").query_term_b :=
  ⟨by decide, by decide⟩

/-- C10 as amended: the result label keys are built from the raw request
strings, the echoed query holds the underscore-substituted terms, and for
any request containing an underscore in either term the label key differs
textually from the key built on the echoed criteria (for requests that
differ only in casing the two coincide, since the echo is not
case-folded). -/
theorem C10_amended_labels_raw_echo_subst (store : List TermRow) (ta tb : String) :
    (dissociate_by_terms store ta tb).label_a_not_b = ta ++ "_not_" ++ tb ∧
    (dissociate_by_terms store ta tb).label_b_not_a = tb ++ "_not_" ++ ta ∧
    (dissociate_by_terms store ta tb).query_term_a = substUnderscores ta ∧
    (dissociate_by_terms store ta tb).query_term_b = substUnderscores tb ∧
    ('_' ∈ ta.data ∨ '_' ∈ tb.data →
      (dissociate_by_terms store ta tb).label_a_not_b ≠
        (dissociate_by_terms store ta tb).query_term_a ++ "_not_" ++
          (dissociate_by_terms store ta tb).query_term_b) :=
  ⟨rfl, rfl, rfl, rfl, fun hu => rawKey_ne_substKey ta tb hu⟩

/-- Witness for the amended C10 at the underscore-bearing term "mem_a". -/
theorem C10_amended_labels_witness :
    ('_' ∈ "mem_a".data ∨ '_' ∈ "reward".data) ∧
    (dissociate_by_terms [] "mem_a" "reward").label_a_not_b ≠
      (dissociate_by_terms [] "mem_a" "reward").query_term_a ++ "_not_" ++
        (dissociate_by_terms [] "mem_a" "reward").query_term_b :=
  ⟨Or.inl (by decide),
    (C10_amended_labels_raw_echo_subst [] "mem_a" "reward").2.2.2.2 (Or.inl (by decide))⟩
